import Mathlib

/-!
Verification of the audio-player control unit of `src/script.js`
(the Playback Sync Controller): `formatTime`, `setDuration`,
`togglePlay`, the `timeupdate` listener and `handleSeek`.

JavaScript numbers are modelled by `JSNum`: either NaN, one of the two
infinities, or a finite value represented as a rational.  The arithmetic
that `formatTime` performs (`/ 60`, `% 60`, `Math.floor`, `< 10`,
string concatenation) is embedded with JavaScript's semantics on this
type: NaN propagates, `Infinity % 60` is NaN, `%` truncates toward zero
and keeps the dividend's sign, `NaN < 10` is false.
-/

/-- A JavaScript number: NaN, +Infinity, -Infinity, or a finite value. -/
inductive JSNum where
  | nan : JSNum
  | posInf : JSNum
  | negInf : JSNum
  | fin : ℚ → JSNum
  deriving DecidableEq

/-- JavaScript `isNaN` (on numbers). -/
def jsIsNaN : JSNum → Bool
  | JSNum.nan => true
  | _ => false

/-- Truncation toward zero, as used by JavaScript's `%` operator. -/
def truncTowardZero (q : ℚ) : ℤ :=
  if q < 0 then ⌈q⌉ else ⌊q⌋

/-- JavaScript `seconds / 60`: NaN propagates, infinities keep their sign. -/
def jsDiv60 : JSNum → JSNum
  | JSNum.nan => JSNum.nan
  | JSNum.posInf => JSNum.posInf
  | JSNum.negInf => JSNum.negInf
  | JSNum.fin q => JSNum.fin (q / 60)

/-- JavaScript `seconds % 60`: NaN for NaN or infinite dividends; otherwise
the remainder has the dividend's sign: `q - 60 * trunc(q / 60)`. -/
def jsMod60 : JSNum → JSNum
  | JSNum.nan => JSNum.nan
  | JSNum.posInf => JSNum.nan
  | JSNum.negInf => JSNum.nan
  | JSNum.fin q => JSNum.fin (q - 60 * (truncTowardZero (q / 60) : ℚ))

/-- JavaScript `Math.floor`: identity on NaN and the infinities. -/
def jsFloor : JSNum → JSNum
  | JSNum.nan => JSNum.nan
  | JSNum.posInf => JSNum.posInf
  | JSNum.negInf => JSNum.negInf
  | JSNum.fin q => JSNum.fin ((⌊q⌋ : ℤ) : ℚ)

/-- JavaScript `x < 10`: false when `x` is NaN, false for +Infinity,
true for -Infinity. -/
def jsLt10 : JSNum → Bool
  | JSNum.nan => false
  | JSNum.posInf => false
  | JSNum.negInf => true
  | JSNum.fin q => decide (q < 10)

/-- JavaScript number-to-string conversion as used by the `+` string
concatenations in `formatTime`.  Inside `formatTime` this is only ever
applied to NaN, the infinities, or `Math.floor` results (integers), so
the integer branch is the faithful one; the non-integer branch is
unreachable there. -/
def jsNumToString : JSNum → String
  | JSNum.nan => "NaN"
  | JSNum.posInf => "Infinity"
  | JSNum.negInf => "-Infinity"
  | JSNum.fin q => if q.den = 1 then toString q.num else toString q

/-- `formatTime` from src/script.js:
`if (isNaN(seconds)) return "0:00";
 let min = Math.floor(seconds / 60);
 let sec = Math.floor(seconds % 60);
 return min + ":" + (sec < 10 ? '0' + sec : sec);` -/
def formatTime (seconds : JSNum) : String :=
  if jsIsNaN seconds then "0:00"
  else
    jsNumToString (jsFloor (jsDiv60 seconds)) ++ ":" ++
      (if jsLt10 (jsFloor (jsMod60 seconds)) then
        "0" ++ jsNumToString (jsFloor (jsMod60 seconds))
      else jsNumToString (jsFloor (jsMod60 seconds)))

/-- Two-digit zero-padding of an integer below 10, as the spec's `pad2`. -/
def pad2 (n : ℤ) : String :=
  if n < 10 then "0" ++ toString n else toString n

/-- The spec's format for non-negative finite seconds: the non-padded
minute count `floor(s / 60)`, a colon, and the zero-padded remainder
`floor(s mod 60)` where, for non-negative `s`, `s mod 60` is
`s - 60 * floor(s / 60)`. -/
def fmtSpec (q : ℚ) : String :=
  toString ⌊q / 60⌋ ++ ":" ++ pad2 ⌊q - 60 * (⌊q / 60⌋ : ℚ)⌋

/-- Unfolding of `formatTime` on a finite value, with the JavaScript-level
wrappers removed in favour of integer floors and truncation. -/
theorem formatTime_fin_eq (q : ℚ) :
    formatTime (JSNum.fin q) =
      toString ⌊q / 60⌋ ++ ":" ++
        (if ⌊q - 60 * (truncTowardZero (q / 60) : ℚ)⌋ < 10 then
          "0" ++ toString ⌊q - 60 * (truncTowardZero (q / 60) : ℚ)⌋
        else toString ⌊q - 60 * (truncTowardZero (q / 60) : ℚ)⌋) := by
  simp only [formatTime, jsIsNaN, jsDiv60, jsMod60, jsFloor, jsLt10, jsNumToString,
    Rat.den_intCast, Rat.num_intCast, if_true, Bool.false_eq_true, if_false,
    decide_eq_true_eq]
  norm_cast

/-- On non-negative finite input, truncation toward zero is the floor. -/
theorem truncTowardZero_nonneg (q : ℚ) (h : 0 ≤ q) :
    truncTowardZero q = ⌊q⌋ := by
  unfold truncTowardZero
  rw [if_neg (not_lt.mpr h)]

/-- `formatTime` meets the spec's format on every non-negative finite input. -/
theorem formatTime_nonneg (q : ℚ) (h : 0 ≤ q) :
    formatTime (JSNum.fin q) = fmtSpec q := by
  rw [formatTime_fin_eq, truncTowardZero_nonneg _ (div_nonneg h (by norm_num))]
  rfl

/-- A command issued to the media element (`audio.play()` / `audio.pause()`). -/
inductive MediaCmd where
  | play : MediaCmd
  | pause : MediaCmd
  deriving DecidableEq

/-- The observable state of the `<audio id="main-audio">` element: its
duration, current playback time, and paused flag.  The spec assumes a
play/pause command takes effect immediately from the UI's perspective,
so issuing a command also flips `paused`. -/
structure MediaSource where
  duration : JSNum
  currentTime : JSNum
  paused : Bool
  deriving DecidableEq

/-- The DOM state the controller touches: the audio element, the seek
bar's `max` and `value`, the two time displays' `innerHTML`, the play
button's `innerHTML`, and the trace of commands issued to the audio
element. -/
structure PlayerState where
  audio : MediaSource
  seekBarMax : JSNum
  seekBarValue : JSNum
  currentTimeDisplay : String
  totalTimeDisplay : String
  playBtnLabel : String
  issuedCmds : List MediaCmd
  deriving DecidableEq

/-- `setDuration` from src/script.js:
`seekBar.max = audio.duration;
 totalTimeDisplay.innerHTML = formatTime(audio.duration);` -/
def setDuration (s : PlayerState) : PlayerState :=
  { s with
    seekBarMax := s.audio.duration
    totalTimeDisplay := formatTime s.audio.duration }

/-- `togglePlay` from src/script.js:
`if (audio.paused) { audio.play(); playBtn.innerHTML = "||"; }
 else { audio.pause(); playBtn.innerHTML = "▶"; }` -/
def togglePlay (s : PlayerState) : PlayerState :=
  if s.audio.paused then
    { s with
      audio := { s.audio with paused := false }
      issuedCmds := s.issuedCmds ++ [MediaCmd.play]
      playBtnLabel := "||" }
  else
    { s with
      audio := { s.audio with paused := true }
      issuedCmds := s.issuedCmds ++ [MediaCmd.pause]
      playBtnLabel := "▶" }

/-- The `timeupdate` listener from src/script.js:
`if (!audio.paused) { seekBar.value = audio.currentTime;
 currentTimeDisplay.innerHTML = formatTime(audio.currentTime); }` -/
def onTimeUpdate (s : PlayerState) : PlayerState :=
  if !s.audio.paused then
    { s with
      seekBarValue := s.audio.currentTime
      currentTimeDisplay := formatTime s.audio.currentTime }
  else s

/-- `handleSeek` from src/script.js:
`audio.currentTime = seekBar.value;
 currentTimeDisplay.innerHTML = formatTime(audio.currentTime);`
The second line reads back the `currentTime` just written, which in this
model equals `seekBar.value`. -/
def handleSeek (s : PlayerState) : PlayerState :=
  { s with
    audio := { s.audio with currentTime := s.seekBarValue }
    currentTimeDisplay := formatTime s.seekBarValue }

/-- A concrete playing state, used to instantiate hypotheses. -/
def samplePlaying : PlayerState :=
  { audio := { duration := JSNum.fin 185, currentTime := JSNum.fin 42, paused := false }
    seekBarMax := JSNum.fin 185
    seekBarValue := JSNum.fin 7
    currentTimeDisplay := "0:07"
    totalTimeDisplay := "3:05"
    playBtnLabel := "||"
    issuedCmds := [MediaCmd.play] }

/-- A concrete paused state, used to instantiate hypotheses. -/
def samplePaused : PlayerState :=
  { audio := { duration := JSNum.fin 185, currentTime := JSNum.fin 42, paused := true }
    seekBarMax := JSNum.fin 185
    seekBarValue := JSNum.fin 7
    currentTimeDisplay := "0:07"
    totalTimeDisplay := "3:05"
    playBtnLabel := "▶"
    issuedCmds := [] }

/-- C1: when the media source is not paused and a `timeupdate` fires with
`currentTime = t`, the handler sets the seek bar's value to `t` and the
elapsed-time display to `formatTime t`. -/
theorem advance_sync_not_paused (s : PlayerState) (t : JSNum)
    (hp : s.audio.paused = false) (ht : s.audio.currentTime = t) :
    (onTimeUpdate s).seekBarValue = t ∧
    (onTimeUpdate s).currentTimeDisplay = formatTime t := by
  simp [onTimeUpdate, hp, ht]

theorem advance_sync_not_paused_witness :
    (onTimeUpdate samplePlaying).seekBarValue = JSNum.fin 42 ∧
    (onTimeUpdate samplePlaying).currentTimeDisplay = formatTime (JSNum.fin 42) :=
  advance_sync_not_paused samplePlaying (JSNum.fin 42) rfl rfl

/-- C2: invoking `handleSeek` with the seek bar at value `t` sets the
media source's `currentTime` to `t` and the elapsed-time display to
`formatTime t`, in the same step. -/
theorem handleSeek_sets_time_and_display (s : PlayerState) (t : JSNum)
    (h : s.seekBarValue = t) :
    (handleSeek s).audio.currentTime = t ∧
    (handleSeek s).currentTimeDisplay = formatTime t := by
  subst h
  exact ⟨rfl, rfl⟩

theorem handleSeek_sets_time_and_display_witness :
    (handleSeek samplePlaying).audio.currentTime = JSNum.fin 7 ∧
    (handleSeek samplePlaying).currentTimeDisplay = formatTime (JSNum.fin 7) :=
  handleSeek_sets_time_and_display samplePlaying (JSNum.fin 7) rfl

/-- C3: when paused, `togglePlay` issues a play command and sets the
button label to the playing glyph `"||"`; when not paused, it issues a
pause command and sets the label to `"▶"`; in both cases the label and
the (immediately effective) paused flag reflect the new state. -/
theorem togglePlay_commands_and_label (s : PlayerState) :
    (s.audio.paused = true →
      (togglePlay s).issuedCmds = s.issuedCmds ++ [MediaCmd.play] ∧
      (togglePlay s).playBtnLabel = "||" ∧
      (togglePlay s).audio.paused = false) ∧
    (s.audio.paused = false →
      (togglePlay s).issuedCmds = s.issuedCmds ++ [MediaCmd.pause] ∧
      (togglePlay s).playBtnLabel = "▶" ∧
      (togglePlay s).audio.paused = true) := by
  constructor <;> intro h <;> simp [togglePlay, h]

theorem togglePlay_commands_and_label_witness :
    ((togglePlay samplePaused).issuedCmds = samplePaused.issuedCmds ++ [MediaCmd.play] ∧
      (togglePlay samplePaused).playBtnLabel = "||" ∧
      (togglePlay samplePaused).audio.paused = false) ∧
    ((togglePlay samplePlaying).issuedCmds = samplePlaying.issuedCmds ++ [MediaCmd.pause] ∧
      (togglePlay samplePlaying).playBtnLabel = "▶" ∧
      (togglePlay samplePlaying).audio.paused = true) :=
  ⟨(togglePlay_commands_and_label samplePaused).1 rfl,
   (togglePlay_commands_and_label samplePlaying).2 rfl⟩

/-- C4: on every non-negative finite input, `formatTime` produces the
non-padded minute count, a colon, and the two-digit zero-padded second
remainder; in particular `0 ↦ "0:00"`, `59 ↦ "0:59"`, `60 ↦ "1:00"`,
`125 ↦ "2:05"`. -/
theorem formatTime_nonneg_spec :
    (∀ q : ℚ, 0 ≤ q → formatTime (JSNum.fin q) = fmtSpec q) ∧
    formatTime (JSNum.fin 0) = "0:00" ∧
    formatTime (JSNum.fin 59) = "0:59" ∧
    formatTime (JSNum.fin 60) = "1:00" ∧
    formatTime (JSNum.fin 125) = "2:05" := by
  refine ⟨formatTime_nonneg, ?_, ?_, ?_, ?_⟩ <;>
    · rw [formatTime_fin_eq, truncTowardZero_nonneg _ (by norm_num)]
      norm_num
      decide

theorem formatTime_nonneg_spec_witness :
    (0 : ℚ) ≤ 125 ∧ formatTime (JSNum.fin 125) = fmtSpec 125 :=
  ⟨by norm_num, formatTime_nonneg_spec.1 125 (by norm_num)⟩

/-- C5: `formatTime` applied to NaN returns exactly `"0:00"`. -/
theorem formatTime_nan_fallback : formatTime JSNum.nan = "0:00" := by
  decide

/-- C6 counterexample: `formatTime` at positive infinity does not return
the fallback `"0:00"` (only NaN is guarded by the `isNaN` check). -/
theorem formatTime_posInf_no_fallback : formatTime JSNum.posInf ≠ "0:00" := by
  decide

/-- C6 amended: only NaN falls back to `"0:00"`; the infinities flow
through the arithmetic, giving `"Infinity:NaN"` and `"-Infinity:NaN"`. -/
theorem formatTime_nonfinite_behavior :
    formatTime JSNum.nan = "0:00" ∧
    formatTime JSNum.posInf = "Infinity:NaN" ∧
    formatTime JSNum.negInf = "-Infinity:NaN" := by
  refine ⟨?_, ?_, ?_⟩ <;> decide

/-- C7: while paused, a delivered `timeupdate` leaves the seek bar's
value and the elapsed-time display unchanged. -/
theorem timeupdate_paused_leaves_ui (s : PlayerState)
    (h : s.audio.paused = true) :
    (onTimeUpdate s).seekBarValue = s.seekBarValue ∧
    (onTimeUpdate s).currentTimeDisplay = s.currentTimeDisplay := by
  simp [onTimeUpdate, h]

theorem timeupdate_paused_leaves_ui_witness :
    (onTimeUpdate samplePaused).seekBarValue = samplePaused.seekBarValue ∧
    (onTimeUpdate samplePaused).currentTimeDisplay = samplePaused.currentTimeDisplay :=
  timeupdate_paused_leaves_ui samplePaused rfl

/-- C8: `setDuration` is idempotent — calling it twice gives the same
end state as calling it once — and it sets the seek bar's bound to the
duration and the total-time display to the formatted duration. -/
theorem setDuration_idempotent (s : PlayerState) :
    setDuration (setDuration s) = setDuration s ∧
    (setDuration s).seekBarMax = s.audio.duration ∧
    (setDuration s).totalTimeDisplay = formatTime s.audio.duration :=
  ⟨rfl, rfl, rfl⟩

/-- C9: after a `timeupdate` handled while not paused, and after a
manual seek, the elapsed-time display equals `formatTime` of the seek
bar's value. -/
theorem display_matches_scrub (s : PlayerState) :
    (s.audio.paused = false →
      (onTimeUpdate s).currentTimeDisplay =
        formatTime (onTimeUpdate s).seekBarValue) ∧
    (handleSeek s).currentTimeDisplay =
      formatTime (handleSeek s).seekBarValue := by
  constructor
  · intro h
    simp [onTimeUpdate, h]
  · rfl

theorem display_matches_scrub_witness :
    (onTimeUpdate samplePlaying).currentTimeDisplay =
      formatTime (onTimeUpdate samplePlaying).seekBarValue ∧
    (handleSeek samplePlaying).currentTimeDisplay =
      formatTime (handleSeek samplePlaying).seekBarValue :=
  ⟨(display_matches_scrub samplePlaying).1 rfl,
   (display_matches_scrub samplePlaying).2⟩

/-- C10: `formatTime` does no clamping or sign handling on negative
inputs: `formatTime (-1)` is the malformed string `"-1:0-1"` (the
remainder keeps the dividend's sign, and `-1 < 10` triggers the pad). -/
theorem formatTime_negative_unclamped :
    formatTime (JSNum.fin (-1)) = "-1:0-1" := by
  rw [formatTime_fin_eq]
  have h : truncTowardZero ((-1 : ℚ) / 60) = 0 := by
    unfold truncTowardZero
    rw [if_pos (by norm_num)]
    norm_num
  rw [h]
  norm_num
  decide

